import Mathlib

set_option maxRecDepth 8000

/-!
Verification of the credential-store core of `login_system.py` (classes and
functions: `LoginSystem.hash_password`, `register`, `login`,
`generate_recovery_code`, `reset_password`, and the first-run bootstrap in
`load_data`), against the configuration constants of `config.py`.

The embedding models the in-memory state of `LoginSystem` (the `users` and
`login_attempts` dictionaries) as partial maps from usernames, time as whole
seconds (a `Nat` clock passed to each operation that reads `datetime.now()`),
and the SHA-256 hex digest used by `hash_password` as a concrete executable
function.  File persistence (`save_data` / `load_data` round-trips) is I/O and
is outside the model; the in-memory maps are the source of truth, exactly as
the code treats them.
-/

namespace LoginSys

/-! ## SHA-256 (the `hashlib.sha256(...).hexdigest()` used by `hash_password`) -/

/-- 2^32, the word modulus of SHA-256. -/
def M32 : Nat := 4294967296

/-- Addition modulo 2^32. -/
def add32 (a b : Nat) : Nat := (a + b) % M32

/-- Bitwise complement on 32-bit words. -/
def not32 (a : Nat) : Nat := Nat.xor a (M32 - 1)

/-- Right rotation of a 32-bit word by `n` places. -/
def rotr (n a : Nat) : Nat := Nat.lor (a >>> n) ((a <<< (32 - n)) % M32)

/-- The SHA-256 `Ch` function. -/
def ch (e f g : Nat) : Nat := Nat.xor (Nat.land e f) (Nat.land (not32 e) g)

/-- The SHA-256 `Maj` function. -/
def maj (a b c : Nat) : Nat :=
  Nat.xor (Nat.land a b) (Nat.xor (Nat.land a c) (Nat.land b c))

/-- The SHA-256 big sigma-0 function. -/
def bsig0 (a : Nat) : Nat := Nat.xor (rotr 2 a) (Nat.xor (rotr 13 a) (rotr 22 a))

/-- The SHA-256 big sigma-1 function. -/
def bsig1 (a : Nat) : Nat := Nat.xor (rotr 6 a) (Nat.xor (rotr 11 a) (rotr 25 a))

/-- The SHA-256 small sigma-0 function. -/
def ssig0 (a : Nat) : Nat := Nat.xor (rotr 7 a) (Nat.xor (rotr 18 a) (a >>> 3))

/-- The SHA-256 small sigma-1 function. -/
def ssig1 (a : Nat) : Nat := Nat.xor (rotr 17 a) (Nat.xor (rotr 19 a) (a >>> 10))

/-- Trial-division primality test, adequate below 400 (every composite
there has a divisor under 20). -/
def isPrimeSmall (n : Nat) : Bool :=
  2 ≤ n && (List.range 20).all (fun d => d < 2 || n < d * d || n % d ≠ 0)

/-- The first `k` primes (drawn from below 400, enough for the 64 needed). -/
def firstPrimes (k : Nat) : List Nat :=
  ((List.range 400).filter isPrimeSmall).take k

/-- Binary search for the integer cube root of `n` on the interval
`[lo, hi)`; the first argument is fuel. -/
def icbrtAux (n : Nat) : Nat → Nat → Nat → Nat
  | 0, lo, _ => lo
  | fuel + 1, lo, hi =>
    if hi ≤ lo + 1 then lo
    else
      let mid := (lo + hi) / 2
      if mid * mid * mid ≤ n then icbrtAux n fuel mid hi else icbrtAux n fuel lo mid

/-- Integer (floor) cube root. -/
def icbrt (n : Nat) : Nat := icbrtAux n (n + 2) 0 (n + 1)

/-- Binary search for the integer square root of `n` on `[lo, hi)`; the
first argument is fuel. -/
def isqrtAux (n : Nat) : Nat → Nat → Nat → Nat
  | 0, lo, _ => lo
  | fuel + 1, lo, hi =>
    if hi ≤ lo + 1 then lo
    else
      let mid := (lo + hi) / 2
      if mid * mid ≤ n then isqrtAux n fuel mid hi else isqrtAux n fuel lo mid

/-- Integer (floor) square root. -/
def isqrt (n : Nat) : Nat := isqrtAux n (n + 2) 0 (n + 1)

/-- The 64 SHA-256 round constants: the first 32 bits of the fractional
parts of the cube roots of the first 64 primes, i.e.
`⌊cbrt(p) * 2^32⌋ mod 2^32 = ⌊cbrt(p * 2^96)⌋ mod 2^32`. -/
def K : List Nat :=
  (firstPrimes 64).map (fun p => icbrt (p <<< 96) % M32)

/-- The eight 32-bit working variables of the SHA-256 compression function. -/
structure Sha256St where
  a : Nat
  b : Nat
  c : Nat
  d : Nat
  e : Nat
  f : Nat
  g : Nat
  h : Nat
deriving DecidableEq, Repr

/-- The `i`-th initial hash word: the first 32 bits of the fractional part
of the square root of the `i`-th prime. -/
def hInit (i : Nat) : Nat := isqrt (((firstPrimes 8).getD i 0) <<< 64) % M32

/-- The SHA-256 initial hash value. -/
def H0 : Sha256St :=
  ⟨hInit 0, hInit 1, hInit 2, hInit 3, hInit 4, hInit 5, hInit 6, hInit 7⟩

/-- One step of the SHA-256 message-schedule recurrence; `ws` is the schedule
so far, newest word first. -/
def wStep (ws : List Nat) : List Nat :=
  let w2 := ws.getD 1 0
  let w7 := ws.getD 6 0
  let w15 := ws.getD 14 0
  let w16 := ws.getD 15 0
  add32 (add32 (ssig1 w2) w7) (add32 (ssig0 w15) w16) :: ws

/-- The full 64-word message schedule of one block (the block is given as its
16 initial words, oldest first). -/
def schedule (block : List Nat) : List Nat :=
  (wStep^[48] block.reverse).reverse

/-- One SHA-256 compression round with round constant `k` and schedule word `w`. -/
def sha256Round (st : Sha256St) (kw : Nat × Nat) : Sha256St :=
  let t1 := add32 st.h (add32 (bsig1 st.e) (add32 (ch st.e st.f st.g) (add32 kw.1 kw.2)))
  let t2 := add32 (bsig0 st.a) (maj st.a st.b st.c)
  ⟨add32 t1 t2, st.a, st.b, st.c, add32 st.d t1, st.e, st.f, st.g⟩

/-- Process one 16-word block, updating the intermediate hash value. -/
def processBlock (st : Sha256St) (block : List Nat) : Sha256St :=
  let r := (K.zip (schedule block)).foldl sha256Round st
  ⟨add32 st.a r.a, add32 st.b r.b, add32 st.c r.c, add32 st.d r.d,
   add32 st.e r.e, add32 st.f r.f, add32 st.g r.g, add32 st.h r.h⟩

/-- Collect four big-endian bytes per 32-bit word; `n` is fuel. -/
def bytesToWords : Nat → List Nat → List Nat
  | 0, _ => []
  | n + 1, b0 :: b1 :: b2 :: b3 :: rest =>
      (b0 * 16777216 + b1 * 65536 + b2 * 256 + b3) :: bytesToWords n rest
  | _ + 1, _ => []

/-- Split a byte list into 64-byte chunks of 16 words each; `n` is fuel. -/
def toBlocks : Nat → List Nat → List (List Nat)
  | 0, _ => []
  | _ + 1, [] => []
  | n + 1, bs => bytesToWords 16 (bs.take 64) :: toBlocks n (bs.drop 64)

/-- SHA-256 padding: append `0x80`, zeros to 56 mod 64 bytes, then the
bit length as an 8-byte big-endian integer. -/
def pad (msg : List Nat) : List Nat :=
  let len := msg.length
  let L := (8 * len) % (2 ^ 64)
  msg ++ 128 :: List.replicate ((119 - len % 64) % 64) 0 ++
    [L >>> 56 % 256, L >>> 48 % 256, L >>> 40 % 256, L >>> 32 % 256,
     L >>> 24 % 256, L >>> 16 % 256, L >>> 8 % 256, L % 256]

/-- The SHA-256 hash of a byte sequence, as eight 32-bit words. -/
def sha256Words (msg : List Nat) : Sha256St :=
  let padded := pad msg
  (toBlocks padded.length padded).foldl processBlock H0

/-- Lower-case hexadecimal digit for `n < 16`. -/
def hexDigit (n : Nat) : Char :=
  if n < 10 then Char.ofNat (48 + n) else Char.ofNat (87 + n)

/-- The eight lower-case hex characters of a 32-bit word, most significant
first. -/
def wordHex (w : Nat) : List Char :=
  [hexDigit (w / 268435456 % 16), hexDigit (w / 16777216 % 16),
   hexDigit (w / 1048576 % 16), hexDigit (w / 65536 % 16),
   hexDigit (w / 4096 % 16), hexDigit (w / 256 % 16),
   hexDigit (w / 16 % 16), hexDigit (w % 16)]

/-- The 64-character hex digest of a hash value. -/
def digestHex (st : Sha256St) : String :=
  String.mk (wordHex st.a ++ wordHex st.b ++ wordHex st.c ++ wordHex st.d ++
             wordHex st.e ++ wordHex st.f ++ wordHex st.g ++ wordHex st.h)

/-- UTF-8 encoding of one Unicode scalar value given as its code point. -/
def utf8EncodeCp (n : Nat) : List Nat :=
  if n < 128 then [n]
  else if n < 2048 then [192 + n / 64, 128 + n % 64]
  else if n < 65536 then [224 + n / 4096, 128 + n / 64 % 64, 128 + n % 64]
  else [240 + n / 262144, 128 + n / 4096 % 64, 128 + n / 64 % 64, 128 + n % 64]

/-- UTF-8 byte sequence of a string, as Python's `str.encode()` produces. -/
def strBytes (s : String) : List Nat :=
  (s.data.map (fun c => utf8EncodeCp c.toNat)).flatten

/-- `LoginSystem.hash_password`: the SHA-256 hex digest of the UTF-8 encoding
of the password (`hashlib.sha256(password.encode()).hexdigest()`). -/
def hash_password (password : String) : String :=
  digestHex (sha256Words (strBytes password))

/-- Known-answer test anchoring the SHA-256 embedding (and the derived
constant tables): the digest of `abc` stated in FIPS 180-4. -/
theorem hash_password_abc :
    hash_password "abc" =
      "ba7816bf8f01cfea414140de5dae2223b00361a396177a9cb410ff61f20015ad" := by
  decide

/-! ## Configuration (`config.py`) -/

/-- `MAX_LOGIN_ATTEMPTS = 3` from `config.py`. -/
def MAX_LOGIN_ATTEMPTS : Nat := 3

/-- `LOCKOUT_TIME = 300` seconds from `config.py`. -/
def LOCKOUT_TIME : Nat := 300

/-- `PASSWORD_MIN_LENGTH = 6` from `config.py`. -/
def PASSWORD_MIN_LENGTH : Nat := 6

/-- `ADMIN_USERNAME = "admin"` from `config.py`. -/
def ADMIN_USERNAME : String := "admin"

/-- `ADMIN_PASSWORD = "admin123"` from `config.py`. -/
def ADMIN_PASSWORD : String := "admin123"

/-! ## Data model

The per-user record stored in `self.users` and the per-user login-attempt
record stored in `self.login_attempts`.  Timestamps are modelled as whole
seconds (`Nat`); `datetime.now()` becomes an explicit `now` argument. -/

/-- One entry of `self.users`: the dictionary created at lines 89-97
(bootstrap), 184-190 (`register`) and mutated by `login` (`last_login`),
`generate_recovery_code` and `reset_password`. -/
structure UserRecord where
  password : String
  role : String
  created_at : Nat
  last_login : Option Nat
  recovery_code : Option String
deriving DecidableEq, Repr

/-- One entry of `self.login_attempts`: a `count` and an optional
`lockout_until` timestamp (the key is absent when no lockout is in force). -/
structure AttemptRecord where
  count : Nat
  lockout_until : Option Nat
deriving DecidableEq, Repr

/-- The in-memory state of a `LoginSystem` object: the `users` and
`login_attempts` dictionaries, as partial maps keyed by username. -/
structure SystemState where
  users : String → Option UserRecord
  login_attempts : String → Option AttemptRecord

/-- Dictionary update `m[k] = v` for the users map. -/
def updU (m : String → Option UserRecord) (k : String) (v : UserRecord) :
    String → Option UserRecord :=
  fun x => if x = k then some v else m x

/-- Dictionary update `m[k] = v` for the attempts map. -/
def updA (m : String → Option AttemptRecord) (k : String) (v : AttemptRecord) :
    String → Option AttemptRecord :=
  fun x => if x = k then some v else m x

/-- The empty users dictionary. -/
def emptyUsers : String → Option UserRecord := fun _ => none

/-- The empty login-attempts dictionary. -/
def emptyAttempts : String → Option AttemptRecord := fun _ => none

/-- The first-run bootstrap of `load_data` (lines 88-98): when no database
file exists, a single seed admin record is created with the hashed default
password. -/
def bootstrapState (now : Nat) : SystemState :=
  { users := (updU emptyUsers ADMIN_USERNAME
      ⟨hash_password ADMIN_PASSWORD, "admin", now, none, none⟩),
    login_attempts := emptyAttempts }

/-! ## Operations -/

/-- `LoginSystem.register` (lines 158-193).  Returns the updated state and
the `(bool, str)` result tuple. -/
def register (s : SystemState) (now : Nat) (username password confirm_password : String) :
    SystemState × Bool × String :=
  if (s.users username).isSome then
    (s, false, "Usuário já existe.")
  else if password.length < PASSWORD_MIN_LENGTH then
    (s, false, "A senha deve ter pelo menos " ++ toString PASSWORD_MIN_LENGTH ++ " caracteres.")
  else if password ≠ confirm_password then
    (s, false, "As senhas não conferem.")
  else
    ({ s with users := (updU s.users username
        ⟨hash_password password, "user", now, none, none⟩) },
     true, "Usuário registrado com sucesso!")

/-- The password-comparison half of `LoginSystem.login` (lines 226-251),
reached once the lockout check has passed; `u` is `self.users[username]`. -/
def loginPw (s : SystemState) (now : Nat) (username password : String) (u : UserRecord) :
    SystemState × Bool × String :=
  if u.password ≠ hash_password password then
    let a0 : AttemptRecord := (s.login_attempts username).getD ⟨0, none⟩
    let a1 : AttemptRecord := { a0 with count := a0.count + 1 }
    if MAX_LOGIN_ATTEMPTS ≤ a1.count then
      ({ s with login_attempts := (updA s.login_attempts username
          { a1 with lockout_until := some (now + LOCKOUT_TIME) }) },
       false,
       "Conta bloqueada por " ++ toString (LOCKOUT_TIME / 60) ++
         " minutos devido a muitas tentativas incorretas.")
    else
      ({ s with login_attempts := updA s.login_attempts username a1 },
       false,
       "Senha incorreta. Tentativas restantes: " ++
         toString (MAX_LOGIN_ATTEMPTS - a1.count) ++ ".")
  else
    let s1 :=
      match s.login_attempts username with
      | some a => { s with login_attempts := updA s.login_attempts username { a with count := 0 } }
      | none => s
    ({ s1 with users := updU s1.users username { u with last_login := some now } },
     true, "Login realizado com sucesso!")

/-- `LoginSystem.login` (lines 195-251): the user-existence check, the
lockout check (a future `lockout_until` rejects without touching the
password; a past one is deleted and `count` reset to 0), then the password
comparison. -/
def login (s : SystemState) (now : Nat) (username password : String) :
    SystemState × Bool × String :=
  match s.users username with
  | none => (s, false, "Usuário não encontrado.")
  | some u =>
    match s.login_attempts username with
    | some a =>
      match a.lockout_until with
      | some t =>
        if now < t then
          (s, false,
           "Conta bloqueada. Tente novamente em " ++ toString (t - now) ++ " segundos.")
        else
          loginPw { s with login_attempts := updA s.login_attempts username ⟨0, none⟩ }
            now username password u
      | none => loginPw s now username password u
    | none => loginPw s now username password u

/-- `LoginSystem.generate_recovery_code` (lines 264-285).  The 8-character
random string drawn by `random.choices` is an external input and is passed
in as the `code` argument. -/
def generate_recovery_code (s : SystemState) (code : String) (username : String) :
    SystemState × Bool × String :=
  match s.users username with
  | none => (s, false, "Usuário não encontrado.")
  | some u =>
    ({ s with users := updU s.users username { u with recovery_code := some code } },
     true, code)

/-- The set of strings `random.choices(string.ascii_uppercase + string.digits, k=8)`
can produce: 8 characters, each an upper-case letter or digit. -/
def validRecoveryCode (c : String) : Bool :=
  c.length = 8 && c.data.all (fun ch => ('A' ≤ ch && ch ≤ 'Z') || ('0' ≤ ch && ch ≤ '9'))

/-- `LoginSystem.reset_password` (lines 287-315).  Python's
`not user["recovery_code"]` is truthiness: it holds for `None` and for the
empty string, hence the `getD "" = ""` disjunct. -/
def reset_password (s : SystemState) (username recovery_code new_password : String) :
    SystemState × Bool × String :=
  match s.users username with
  | none => (s, false, "Usuário não encontrado.")
  | some u =>
    if u.recovery_code.getD "" = "" ∨ u.recovery_code ≠ some recovery_code then
      (s, false, "Código de recuperação inválido.")
    else if new_password.length < PASSWORD_MIN_LENGTH then
      (s, false, "A nova senha deve ter pelo menos " ++ toString PASSWORD_MIN_LENGTH ++ " caracteres.")
    else
      ({ s with users := (updU s.users username
          { u with password := hash_password new_password, recovery_code := none }) },
       true, "Senha redefinida com sucesso!")

/-! ## Helper lemmas -/

@[simp]
theorem updU_self (m : String → Option UserRecord) (k : String) (v : UserRecord) :
    updU m k v k = some v := by
  simp [updU]

theorem updU_ne (m : String → Option UserRecord) (k x : String) (v : UserRecord)
    (h : x ≠ k) : updU m k v x = m x := by
  simp [updU, h]

@[simp]
theorem updA_self (m : String → Option AttemptRecord) (k : String) (v : AttemptRecord) :
    updA m k v k = some v := by
  simp [updA]

theorem updA_ne (m : String → Option AttemptRecord) (k x : String) (v : AttemptRecord)
    (h : x ≠ k) : updA m k v x = m x := by
  simp [updA, h]

/-- On the locked path (a future `lockout_until`), `login` rejects with the
remaining time and changes nothing; the password argument is not consulted. -/
theorem login_locked_eq (s : SystemState) (now : Nat) (username password : String)
    (u : UserRecord) (a : AttemptRecord) (t : Nat)
    (hu : s.users username = some u)
    (ha : s.login_attempts username = some a)
    (hl : a.lockout_until = some t)
    (hfut : now < t) :
    login s now username password =
      (s, false, "Conta bloqueada. Tente novamente em " ++ toString (t - now) ++ " segundos.") := by
  simp [login, hu, ha, hl, hfut]

/-- On an expired lockout, `login` deletes `lockout_until`, resets the count
to zero, and proceeds to the password check on the cleared state. -/
theorem login_expired_eq (s : SystemState) (now : Nat) (username password : String)
    (u : UserRecord) (a : AttemptRecord) (t : Nat)
    (hu : s.users username = some u)
    (ha : s.login_attempts username = some a)
    (hl : a.lockout_until = some t)
    (hpast : t ≤ now) :
    login s now username password =
      loginPw { s with login_attempts := updA s.login_attempts username ⟨0, none⟩ }
        now username password u := by
  simp [login, hu, ha, hl, Nat.not_lt.mpr hpast]

/-- With no lockout stored, `login` is the password check. -/
theorem login_no_lockout_eq (s : SystemState) (now : Nat) (username password : String)
    (u : UserRecord)
    (hu : s.users username = some u)
    (ha : s.login_attempts username = none ∨
          ∃ c, s.login_attempts username = some ⟨c, none⟩) :
    login s now username password = loginPw s now username password u := by
  rcases ha with ha | ⟨c, ha⟩ <;> simp [login, hu, ha]

/-- Wrong password, incremented count still below the maximum: the count goes
up by one and the failure reports the remaining attempts. -/
theorem loginPw_wrong_below (s : SystemState) (now : Nat) (username password : String)
    (u : UserRecord) (c : Nat)
    (ha : s.login_attempts username = none ∧ c = 0 ∨
          s.login_attempts username = some ⟨c, none⟩)
    (hpw : u.password ≠ hash_password password)
    (hc : c + 1 < MAX_LOGIN_ATTEMPTS) :
    loginPw s now username password u =
      ({ s with login_attempts := updA s.login_attempts username ⟨c + 1, none⟩ }, false,
       "Senha incorreta. Tentativas restantes: " ++
         toString (MAX_LOGIN_ATTEMPTS - (c + 1)) ++ ".") := by
  rcases ha with ⟨ha, rfl⟩ | ha <;>
    simp [loginPw, ha, hpw, Nat.not_le.mpr hc]

/-- Wrong password reaching the maximum: the count goes up by one and
`lockout_until` is set to `now + LOCKOUT_TIME`. -/
theorem loginPw_wrong_hit (s : SystemState) (now : Nat) (username password : String)
    (u : UserRecord) (c : Nat)
    (ha : s.login_attempts username = none ∧ c = 0 ∨
          s.login_attempts username = some ⟨c, none⟩)
    (hpw : u.password ≠ hash_password password)
    (hc : MAX_LOGIN_ATTEMPTS ≤ c + 1) :
    loginPw s now username password u =
      ({ s with login_attempts := (updA s.login_attempts username
          ⟨c + 1, some (now + LOCKOUT_TIME)⟩) }, false,
       "Conta bloqueada por " ++ toString (LOCKOUT_TIME / 60) ++
         " minutos devido a muitas tentativas incorretas.") := by
  rcases ha with ⟨ha, rfl⟩ | ha <;>
    simp [loginPw, ha, hpw, hc]

/-- `register` never touches the attempts map. -/
theorem register_attempts_eq (s : SystemState) (now : Nat)
    (username password confirm : String) :
    (register s now username password confirm).1.login_attempts = s.login_attempts := by
  unfold register
  split_ifs <;> rfl

/-- `generate_recovery_code` never touches the attempts map. -/
theorem generate_attempts_eq (s : SystemState) (code username : String) :
    (generate_recovery_code s code username).1.login_attempts = s.login_attempts := by
  cases h : s.users username <;> simp [generate_recovery_code, h]

/-- `reset_password` never touches the attempts map. -/
theorem reset_attempts_eq (s : SystemState) (username code new_password : String) :
    (reset_password s username code new_password).1.login_attempts = s.login_attempts := by
  cases h : s.users username with
  | none => simp [reset_password, h]
  | some u =>
    simp only [reset_password, h]
    split_ifs <;> rfl

/-- The invalid-recovery-code rejection of `reset_password`, covering both a
falsy stored code and a mismatched one. -/
theorem reset_password_invalid_eq (s : SystemState) (username code new_password : String)
    (u : UserRecord) (hu : s.users username = some u)
    (h : u.recovery_code.getD "" = "" ∨ u.recovery_code ≠ some code) :
    reset_password s username code new_password =
      (s, false, "Código de recuperação inválido.") := by
  simp only [reset_password, hu]
  rw [if_pos h]

/-- Combined form of the two wrong-password cases: the stored attempts map
gains the incremented record, with a lockout stamp exactly when the new
count reaches the maximum. -/
theorem loginPw_wrong_attempts (s : SystemState) (now : Nat) (username password : String)
    (u : UserRecord) (c : Nat)
    (ha : s.login_attempts username = none ∧ c = 0 ∨
          s.login_attempts username = some ⟨c, none⟩)
    (hpw : u.password ≠ hash_password password) :
    (loginPw s now username password u).1.login_attempts =
      updA s.login_attempts username
        ⟨c + 1, if MAX_LOGIN_ATTEMPTS ≤ c + 1 then some (now + LOCKOUT_TIME) else none⟩ := by
  by_cases hc : MAX_LOGIN_ATTEMPTS ≤ c + 1
  · rw [loginPw_wrong_hit s now username password u c ha hpw hc, if_pos hc]
  · rw [loginPw_wrong_below s now username password u c ha hpw (Nat.not_le.mp hc), if_neg hc]

/-- Correct password with no attempt record: only `last_login` changes. -/
theorem loginPw_right_none (s : SystemState) (now : Nat) (username password : String)
    (u : UserRecord)
    (ha : s.login_attempts username = none)
    (hpw : u.password = hash_password password) :
    loginPw s now username password u =
      ({ s with users := updU s.users username { u with last_login := some now } },
       true, "Login realizado com sucesso!") := by
  simp [loginPw, ha, hpw]

/-- Correct password with an attempt record: its count is reset to zero and
`last_login` is updated. -/
theorem loginPw_right_some (s : SystemState) (now : Nat) (username password : String)
    (u : UserRecord) (a : AttemptRecord)
    (ha : s.login_attempts username = some a)
    (hpw : u.password = hash_password password) :
    loginPw s now username password u =
      ({ users := updU s.users username { u with last_login := some now },
         login_attempts := updA s.login_attempts username { a with count := 0 } },
       true, "Login realizado com sucesso!") := by
  simp [loginPw, ha, hpw]

/-! ## Concrete states used by the witnesses -/

/-- A concrete user record: `alice` with password `secret1`. -/
def aliceRec : UserRecord := ⟨hash_password "secret1", "user", 0, none, none⟩

/-- A concrete one-user state with no login attempts. -/
def sAlice : SystemState := ⟨updU emptyUsers "alice" aliceRec, emptyAttempts⟩

/-- `sAlice` after a lockout until time 100 has been recorded. -/
def sAliceLocked : SystemState :=
  ⟨updU emptyUsers "alice" aliceRec, updA emptyAttempts "alice" ⟨3, some 100⟩⟩

/-- The state after one failed attempt on `sAlice`. -/
def sAliceF1 : SystemState := (login sAlice 10 "alice" "wrong1").1

/-- The state after two failed attempts on `sAlice`. -/
def sAliceF2 : SystemState := (login sAliceF1 20 "alice" "wrong2").1

/-! ## Claims -/

/-- C4: for every user whose attempt record has `lockout_until` strictly in
the future, `login` fails with the account-locked message reporting the
remaining seconds until unlock, computed as `lockout_until - now`, a positive
whole-second value, and the state is unchanged. -/
theorem login_locked_reports_remaining (s : SystemState) (now : Nat)
    (username password : String) (u : UserRecord) (a : AttemptRecord) (t : Nat)
    (hu : s.users username = some u)
    (ha : s.login_attempts username = some a)
    (hl : a.lockout_until = some t)
    (hfut : now < t) :
    login s now username password =
      (s, false, "Conta bloqueada. Tente novamente em " ++ toString (t - now) ++ " segundos.")
    ∧ 0 < t - now :=
  ⟨login_locked_eq s now username password u a t hu ha hl hfut, by omega⟩

/-- Witness for C4: `alice` locked until time 100, queried at time 40 with
the correct password, is rejected with 60 seconds remaining. -/
theorem login_locked_reports_remaining_witness :
    login sAliceLocked 40 "alice" "secret1" =
      (sAliceLocked, false,
       "Conta bloqueada. Tente novamente em " ++ toString (100 - 40) ++ " segundos.")
    ∧ 0 < 100 - 40 :=
  login_locked_reports_remaining sAliceLocked 40 "alice" "secret1" aliceRec
    ⟨3, some 100⟩ 100 rfl rfl rfl (by decide)

/-- C1: starting from a user with no attempt record, exactly
`MAX_LOGIN_ATTEMPTS` consecutive wrong-password calls lock the account with
`lockout_until = now + LOCKOUT_TIME` (the `now` of the last call), and any
further call before that deadline — with any password whatsoever, so no
password comparison can influence it — fails with the locked message and
leaves the state unchanged. -/
theorem login_lockout_after_max_failures
    (s s1 s2 : SystemState) (t1 t2 t3 : Nat) (username pw1 pw2 pw3 : String)
    (u : UserRecord)
    (hu : s.users username = some u)
    (ha : s.login_attempts username = none)
    (h1 : u.password ≠ hash_password pw1)
    (h2 : u.password ≠ hash_password pw2)
    (h3 : u.password ≠ hash_password pw3)
    (hs1 : s1 = (login s t1 username pw1).1)
    (hs2 : s2 = (login s1 t2 username pw2).1) :
    (login s2 t3 username pw3).2 =
      (false, "Conta bloqueada por " ++ toString (LOCKOUT_TIME / 60) ++
        " minutos devido a muitas tentativas incorretas.")
    ∧ (login s2 t3 username pw3).1.login_attempts username =
        some ⟨MAX_LOGIN_ATTEMPTS, some (t3 + LOCKOUT_TIME)⟩
    ∧ ∀ (password : String) (t : Nat), t < t3 + LOCKOUT_TIME →
        login (login s2 t3 username pw3).1 t username password =
          ((login s2 t3 username pw3).1, false,
           "Conta bloqueada. Tente novamente em " ++
             toString (t3 + LOCKOUT_TIME - t) ++ " segundos.") := by
  subst hs1 hs2
  have e1 : login s t1 username pw1 =
      ({ s with login_attempts := updA s.login_attempts username ⟨0 + 1, none⟩ }, false,
       "Senha incorreta. Tentativas restantes: " ++
         toString (MAX_LOGIN_ATTEMPTS - (0 + 1)) ++ ".") := by
    rw [login_no_lockout_eq s t1 username pw1 u hu (Or.inl ha)]
    exact loginPw_wrong_below s t1 username pw1 u 0 (Or.inl ⟨ha, rfl⟩) h1 (by decide)
  have hu1 : (login s t1 username pw1).1.users username = some u := by
    rw [e1]; exact hu
  have ha1 : (login s t1 username pw1).1.login_attempts username = some ⟨1, none⟩ := by
    rw [e1]; exact updA_self _ _ _
  have e2 : login (login s t1 username pw1).1 t2 username pw2 =
      ({ (login s t1 username pw1).1 with login_attempts :=
          (updA (login s t1 username pw1).1.login_attempts username ⟨1 + 1, none⟩) }, false,
       "Senha incorreta. Tentativas restantes: " ++
         toString (MAX_LOGIN_ATTEMPTS - (1 + 1)) ++ ".") := by
    rw [login_no_lockout_eq _ t2 username pw2 u hu1 (Or.inr ⟨1, ha1⟩)]
    exact loginPw_wrong_below _ t2 username pw2 u 1 (Or.inr ha1) h2 (by decide)
  have hu2 : ((login (login s t1 username pw1).1 t2 username pw2).1).users username = some u := by
    rw [e2]; exact hu1
  have ha2 : ((login (login s t1 username pw1).1 t2 username pw2).1).login_attempts username =
      some ⟨2, none⟩ := by
    rw [e2]; exact updA_self _ _ _
  have e3 : login (login (login s t1 username pw1).1 t2 username pw2).1 t3 username pw3 =
      ({ (login (login s t1 username pw1).1 t2 username pw2).1 with login_attempts :=
          (updA (login (login s t1 username pw1).1 t2 username pw2).1.login_attempts username
            ⟨2 + 1, some (t3 + LOCKOUT_TIME)⟩) }, false,
       "Conta bloqueada por " ++ toString (LOCKOUT_TIME / 60) ++
         " minutos devido a muitas tentativas incorretas.") := by
    rw [login_no_lockout_eq _ t3 username pw3 u hu2 (Or.inr ⟨2, ha2⟩)]
    exact loginPw_wrong_hit _ t3 username pw3 u 2 (Or.inr ha2) h3 (by decide)
  have hu3 : (login (login (login s t1 username pw1).1 t2 username pw2).1 t3 username pw3).1.users
      username = some u := by
    rw [e3]; exact hu2
  have ha3 : (login (login (login s t1 username pw1).1 t2 username pw2).1 t3 username
      pw3).1.login_attempts username = some ⟨3, some (t3 + LOCKOUT_TIME)⟩ := by
    rw [e3]; exact updA_self _ _ _
  refine ⟨by rw [e3], ha3, fun password t ht => ?_⟩
  exact login_locked_eq _ t username password u ⟨3, some (t3 + LOCKOUT_TIME)⟩
    (t3 + LOCKOUT_TIME) hu3 ha3 rfl ht

/-- Witness for C1: three wrong passwords for `alice` at times 10, 20, 30
lock the account until 330, and at time 35 even the correct password
`secret1` is rejected with 295 seconds remaining. -/
theorem login_lockout_after_max_failures_witness :
    (login sAliceF2 30 "alice" "wrong3").2 =
      (false, "Conta bloqueada por " ++ toString (LOCKOUT_TIME / 60) ++
        " minutos devido a muitas tentativas incorretas.")
    ∧ (login sAliceF2 30 "alice" "wrong3").1.login_attempts "alice" =
        some ⟨MAX_LOGIN_ATTEMPTS, some (30 + LOCKOUT_TIME)⟩
    ∧ login (login sAliceF2 30 "alice" "wrong3").1 35 "alice" "secret1" =
        ((login sAliceF2 30 "alice" "wrong3").1, false,
         "Conta bloqueada. Tente novamente em " ++
           toString (30 + LOCKOUT_TIME - 35) ++ " segundos.") :=
  have h := login_lockout_after_max_failures sAlice sAliceF1 sAliceF2 10 20 30 "alice"
    "wrong1" "wrong2" "wrong3" aliceRec rfl rfl (by decide) (by decide) (by decide) rfl rfl
  ⟨h.1, h.2.1, h.2.2 "secret1" 35 (by decide)⟩

/-- C2: when the stored `lockout_until` is in the past, the next `login`
call clears the lockout and resets the count to zero before the password is
checked: a correct password then succeeds with the count at zero, and a
wrong one is counted as a first failure. -/
theorem login_lockout_expiry_resets
    (s : SystemState) (now : Nat) (username password : String)
    (u : UserRecord) (a : AttemptRecord) (t : Nat)
    (hu : s.users username = some u)
    (ha : s.login_attempts username = some a)
    (hl : a.lockout_until = some t)
    (hpast : t ≤ now) :
    (u.password = hash_password password →
       (login s now username password).2 = (true, "Login realizado com sucesso!")
       ∧ (login s now username password).1.login_attempts username = some ⟨0, none⟩
       ∧ (login s now username password).1.users username =
           some { u with last_login := some now })
    ∧ (u.password ≠ hash_password password →
       (login s now username password).1.login_attempts username = some ⟨0 + 1, none⟩
       ∧ (login s now username password).2 =
           (false, "Senha incorreta. Tentativas restantes: " ++
             toString (MAX_LOGIN_ATTEMPTS - (0 + 1)) ++ ".")) := by
  have e := login_expired_eq s now username password u a t hu ha hl hpast
  have ha' : ({ s with login_attempts := updA s.login_attempts username ⟨0, none⟩} :
      SystemState).login_attempts username = some ⟨0, none⟩ := updA_self _ _ _
  constructor
  · intro hpw
    rw [e, loginPw_right_some _ now username password u ⟨0, none⟩ ha' hpw]
    refine ⟨rfl, updA_self _ _ _, updU_self _ _ _⟩
  · intro hpw
    rw [e, loginPw_wrong_below _ now username password u 0 (Or.inr ha') hpw (by decide)]
    exact ⟨updA_self _ _ _, rfl⟩

/-- Witness for C2: `alice` locked until 100, trying the correct password at
time 150, succeeds and her failure count is back to zero. -/
theorem login_lockout_expiry_resets_witness :
    (login sAliceLocked 150 "alice" "secret1").2 = (true, "Login realizado com sucesso!")
    ∧ (login sAliceLocked 150 "alice" "secret1").1.login_attempts "alice" = some ⟨0, none⟩ :=
  have h := login_lockout_expiry_resets sAliceLocked 150 "alice" "secret1" aliceRec
    ⟨3, some 100⟩ 100 rfl rfl rfl (by decide)
  ⟨(h.1 rfl).1, (h.1 rfl).2.1⟩

/-- C3: for a user with no lockout stored, a wrong-password `login` call
increments the failure count by exactly one (creating the record at count 1
when absent), and when the new count is still below `MAX_LOGIN_ATTEMPTS` the
call fails reporting `MAX_LOGIN_ATTEMPTS - failed_count` attempts remaining;
moreover no operation ever decreases a stored count except a successful
login or the lockout-expiry reset: `register`, `generate_recovery_code` and
`reset_password` never touch the attempts map, and a failed `login` with no
expired lockout pending never shrinks any stored count. -/
theorem failed_count_increment_and_monotone :
    (∀ (s : SystemState) (now : Nat) (username password : String) (u : UserRecord) (c : Nat),
       s.users username = some u →
       (s.login_attempts username = none ∧ c = 0 ∨
        s.login_attempts username = some ⟨c, none⟩) →
       u.password ≠ hash_password password →
       (login s now username password).1.login_attempts username =
         some ⟨c + 1, if MAX_LOGIN_ATTEMPTS ≤ c + 1 then some (now + LOCKOUT_TIME) else none⟩
       ∧ (c + 1 < MAX_LOGIN_ATTEMPTS →
          (login s now username password).2 =
            (false, "Senha incorreta. Tentativas restantes: " ++
              toString (MAX_LOGIN_ATTEMPTS - (c + 1)) ++ ".")))
    ∧ (∀ (s : SystemState) (now : Nat) (username password confirm : String),
        (register s now username password confirm).1.login_attempts = s.login_attempts)
    ∧ (∀ (s : SystemState) (code username : String),
        (generate_recovery_code s code username).1.login_attempts = s.login_attempts)
    ∧ (∀ (s : SystemState) (username code npw : String),
        (reset_password s username code npw).1.login_attempts = s.login_attempts)
    ∧ (∀ (s : SystemState) (now : Nat) (username password m : String) (r r' : AttemptRecord),
        s.login_attempts m = some r →
        (login s now username password).1.login_attempts m = some r' →
        (login s now username password).2.1 = false →
        ¬ (∃ a t, s.login_attempts username = some a ∧ a.lockout_until = some t ∧ t ≤ now) →
        r.count ≤ r'.count) := by
  refine ⟨?_, ?_, ?_, ?_, ?_⟩
  · intro s now username password u c hu ha hpw
    by_cases hc : MAX_LOGIN_ATTEMPTS ≤ c + 1
    · rw [login_no_lockout_eq s now username password u hu
        (ha.imp And.left (fun h => ⟨c, h⟩)),
        loginPw_wrong_hit s now username password u c ha hpw hc]
      exact ⟨by simp [hc], fun h => absurd hc (Nat.not_le.mpr h)⟩
    · rw [login_no_lockout_eq s now username password u hu
        (ha.imp And.left (fun h => ⟨c, h⟩)),
        loginPw_wrong_below s now username password u c ha hpw (Nat.not_le.mp hc)]
      exact ⟨by simp [hc], fun _ => rfl⟩
  · exact register_attempts_eq
  · exact generate_attempts_eq
  · exact reset_attempts_eq
  · intro s now username password m r r' hr hr' hflag hnoexp
    cases hu : s.users username with
    | none =>
      simp only [login, hu] at hr'
      rw [hr] at hr'
      exact le_of_eq (congrArg AttemptRecord.count (Option.some.inj hr'))
    | some u =>
      cases haa : s.login_attempts username with
      | none =>
        rw [login_no_lockout_eq s now username password u hu (Or.inl haa)] at hr' hflag
        by_cases hpw : u.password = hash_password password
        · rw [loginPw_right_none s now username password u haa hpw] at hflag
          simp at hflag
        · rw [loginPw_wrong_attempts s now username password u 0
            (Or.inl ⟨haa, rfl⟩) hpw] at hr'
          by_cases hm : m = username
          · subst hm
            rw [hr] at haa
            cases haa
          · rw [updA_ne _ _ _ _ hm, hr] at hr'
            exact le_of_eq (congrArg AttemptRecord.count (Option.some.inj hr'))
      | some a =>
        obtain ⟨ac, al⟩ := a
        cases al with
        | none =>
          rw [login_no_lockout_eq s now username password u hu (Or.inr ⟨ac, haa⟩)]
            at hr' hflag
          by_cases hpw : u.password = hash_password password
          · rw [loginPw_right_some s now username password u ⟨ac, none⟩ haa hpw] at hflag
            simp at hflag
          · rw [loginPw_wrong_attempts s now username password u ac
              (Or.inr haa) hpw] at hr'
            by_cases hm : m = username
            · subst hm
              rw [updA_self] at hr'
              rw [hr] at haa
              cases Option.some.inj haa
              cases Option.some.inj hr'
              exact Nat.le_succ _
            · rw [updA_ne _ _ _ _ hm, hr] at hr'
              exact le_of_eq (congrArg AttemptRecord.count (Option.some.inj hr'))
        | some t =>
          by_cases hfut : now < t
          · rw [login_locked_eq s now username password u ⟨ac, some t⟩ t hu haa rfl hfut]
              at hr'
            rw [hr] at hr'
            exact le_of_eq (congrArg AttemptRecord.count (Option.some.inj hr'))
          · exact absurd ⟨⟨ac, some t⟩, t, haa, rfl, Nat.not_lt.mp hfut⟩ hnoexp

/-- Witness for C3: a first wrong password for `alice` creates her attempt
record at count 1 (no lockout, since 1 < 3) and reports 2 attempts left. -/
theorem failed_count_increment_and_monotone_witness :
    (login sAlice 10 "alice" "wrong1").1.login_attempts "alice" =
      some ⟨0 + 1, if MAX_LOGIN_ATTEMPTS ≤ 0 + 1 then some (10 + LOCKOUT_TIME) else none⟩
    ∧ (login sAlice 10 "alice" "wrong1").2 =
        (false, "Senha incorreta. Tentativas restantes: " ++
          toString (MAX_LOGIN_ATTEMPTS - (0 + 1)) ++ ".") :=
  have h := failed_count_increment_and_monotone.1 sAlice 10 "alice" "wrong1" aliceRec 0
    rfl (Or.inl ⟨rfl, rfl⟩) (by decide)
  ⟨h.1, h.2 (by decide)⟩

/-- C6: for a fresh username and a password meeting the length minimum,
`register(username, password, password)` succeeds, creating a `user`-role
record holding the hashed password, and a subsequent `login` with the same
credentials succeeds; registration fails with the duplicate-user message
when the username exists (checked first), the too-short message when the
password is below `PASSWORD_MIN_LENGTH` (checked second), and the mismatch
message when the confirmation differs (checked third). -/
theorem register_then_login :
    (∀ (s : SystemState) (now now2 : Nat) (username password : String),
       s.users username = none →
       PASSWORD_MIN_LENGTH ≤ password.length →
       s.login_attempts username = none →
       register s now username password password =
         ({ s with users := (updU s.users username
             ⟨hash_password password, "user", now, none, none⟩) },
          true, "Usuário registrado com sucesso!")
       ∧ (login (register s now username password password).1 now2 username password).2 =
           (true, "Login realizado com sucesso!"))
    ∧ (∀ (s : SystemState) (now : Nat) (username password confirm : String),
        (s.users username).isSome →
        register s now username password confirm = (s, false, "Usuário já existe."))
    ∧ (∀ (s : SystemState) (now : Nat) (username password confirm : String),
        s.users username = none →
        password.length < PASSWORD_MIN_LENGTH →
        register s now username password confirm =
          (s, false, "A senha deve ter pelo menos " ++ toString PASSWORD_MIN_LENGTH ++
            " caracteres."))
    ∧ (∀ (s : SystemState) (now : Nat) (username password confirm : String),
        s.users username = none →
        PASSWORD_MIN_LENGTH ≤ password.length →
        password ≠ confirm →
        register s now username password confirm = (s, false, "As senhas não conferem.")) := by
  refine ⟨?_, ?_, ?_, ?_⟩
  · intro s now now2 username password hu hlen hla
    have e : register s now username password password =
        ({ s with users := (updU s.users username
            ⟨hash_password password, "user", now, none, none⟩) },
         true, "Usuário registrado com sucesso!") := by
      simp [register, hu, Nat.not_lt.mpr hlen]
    refine ⟨e, ?_⟩
    have hu' : (register s now username password password).1.users username =
        some ⟨hash_password password, "user", now, none, none⟩ := by
      rw [e]; exact updU_self _ _ _
    have hla' : (register s now username password password).1.login_attempts username = none := by
      rw [register_attempts_eq]; exact hla
    rw [login_no_lockout_eq _ now2 username password _ hu' (Or.inl hla'),
      loginPw_right_none _ now2 username password _ hla' rfl]
  · intro s now username password confirm h
    simp [register, h]
  · intro s now username password confirm hu hlen
    simp [register, hu, hlen]
  · intro s now username password confirm hu hlen hne
    simp [register, hu, Nat.not_lt.mpr hlen, hne]

/-- Witness for C6: registering `alice`/`secret1` in the empty state then
logging in succeeds, while a five-character password is rejected as too
short. -/
theorem register_then_login_witness :
    (login (register ⟨emptyUsers, emptyAttempts⟩ 0 "alice" "secret1" "secret1").1
      5 "alice" "secret1").2 = (true, "Login realizado com sucesso!")
    ∧ register ⟨emptyUsers, emptyAttempts⟩ 0 "bob" "short" "short" =
        (⟨emptyUsers, emptyAttempts⟩, false,
         "A senha deve ter pelo menos " ++ toString PASSWORD_MIN_LENGTH ++ " caracteres.") :=
  ⟨(register_then_login.1 ⟨emptyUsers, emptyAttempts⟩ 0 5 "alice" "secret1" rfl
      (by decide) rfl).2,
   register_then_login.2.2.1 ⟨emptyUsers, emptyAttempts⟩ 0 "bob" "short" "short" rfl
     (by decide)⟩

/-- C5: generating a recovery code for an existing user and then resetting
with the exactly matching code and an acceptable new password succeeds,
replaces the stored password with the hash of the new one and clears the
code; a second reset with the same, now-consumed code fails with the
invalid-recovery-code message. -/
theorem recovery_code_single_use
    (s : SystemState) (username code new_password : String) (u : UserRecord)
    (hu : s.users username = some u)
    (hcode : validRecoveryCode code = true)
    (hlen : PASSWORD_MIN_LENGTH ≤ new_password.length) :
    generate_recovery_code s code username =
      ({ s with users := (updU s.users username { u with recovery_code := some code }) },
       true, code)
    ∧ (reset_password (generate_recovery_code s code username).1
        username code new_password).2 = (true, "Senha redefinida com sucesso!")
    ∧ (reset_password (generate_recovery_code s code username).1
        username code new_password).1.users username =
        some { u with password := hash_password new_password, recovery_code := none }
    ∧ ∀ new_password2 : String,
        reset_password
          (reset_password (generate_recovery_code s code username).1
            username code new_password).1 username code new_password2 =
        ((reset_password (generate_recovery_code s code username).1
            username code new_password).1, false, "Código de recuperação inválido.") := by
  have hne : code ≠ "" := by
    intro h
    subst h
    simp [validRecoveryCode] at hcode
  have e1 : generate_recovery_code s code username =
      ({ s with users := (updU s.users username { u with recovery_code := some code }) },
       true, code) := by
    simp [generate_recovery_code, hu]
  have hu1 : (generate_recovery_code s code username).1.users username =
      some { u with recovery_code := some code } := by
    rw [e1]; exact updU_self _ _ _
  have e2 : reset_password (generate_recovery_code s code username).1
      username code new_password =
      ({ (generate_recovery_code s code username).1 with users :=
          (updU (generate_recovery_code s code username).1.users username
            { u with password := hash_password new_password, recovery_code := none }) },
       true, "Senha redefinida com sucesso!") := by
    simp only [reset_password, hu1]
    rw [if_neg (by simp [hne]), if_neg (Nat.not_lt.mpr hlen)]
  have hu2 : (reset_password (generate_recovery_code s code username).1
      username code new_password).1.users username =
      some { u with password := hash_password new_password, recovery_code := none } := by
    rw [e2]; exact updU_self _ _ _
  exact ⟨e1, by rw [e2], hu2, fun new_password2 =>
    reset_password_invalid_eq _ username code new_password2 _ hu2 (Or.inl rfl)⟩

/-- Witness for C5: generating code `ABCD1234` for `alice`, resetting to
`newpass9` succeeds, and reusing the consumed code fails. -/
theorem recovery_code_single_use_witness :
    (reset_password (generate_recovery_code sAlice "ABCD1234" "alice").1
      "alice" "ABCD1234" "newpass9").2 = (true, "Senha redefinida com sucesso!")
    ∧ reset_password
        (reset_password (generate_recovery_code sAlice "ABCD1234" "alice").1
          "alice" "ABCD1234" "newpass9").1 "alice" "ABCD1234" "other9pw" =
      ((reset_password (generate_recovery_code sAlice "ABCD1234" "alice").1
          "alice" "ABCD1234" "newpass9").1, false, "Código de recuperação inválido.") :=
  have h := recovery_code_single_use sAlice "alice" "ABCD1234" "newpass9" aliceRec
    rfl (by decide) (by decide)
  ⟨h.2.1, h.2.2.2 "other9pw"⟩

/-- C7: for an existing user, `reset_password` returns the identical failure
triple — unchanged state, `false`, and the same message — whether no
recovery code is stored or the supplied code mismatches the stored one. -/
theorem reset_password_failure_indistinguishable
    (s : SystemState) (username code new_password : String) (u : UserRecord)
    (hu : s.users username = some u)
    (h : u.recovery_code = none ∨ u.recovery_code ≠ some code) :
    reset_password s username code new_password =
      (s, false, "Código de recuperação inválido.") :=
  reset_password_invalid_eq s username code new_password u hu
    (h.imp (fun h' => by simp [h']) id)

/-- Witness for C7: `alice` with no code stored and `alice` with code
`ABCD1234` queried with `WRONGCOD` produce the same failure result. -/
theorem reset_password_failure_indistinguishable_witness :
    reset_password sAlice "alice" "ABCD1234" "newpass9" =
      (sAlice, false, "Código de recuperação inválido.")
    ∧ reset_password (generate_recovery_code sAlice "ABCD1234" "alice").1
        "alice" "WRONGCOD" "newpass9" =
      ((generate_recovery_code sAlice "ABCD1234" "alice").1, false,
       "Código de recuperação inválido.") :=
  ⟨reset_password_failure_indistinguishable sAlice "alice" "ABCD1234" "newpass9"
     aliceRec rfl (Or.inl rfl),
   reset_password_failure_indistinguishable _ "alice" "WRONGCOD" "newpass9"
     { aliceRec with recovery_code := some "ABCD1234" } rfl (Or.inr (by decide))⟩

/-- C10: whenever `reset_password` fails, the state is left completely
unchanged; in particular a too-short new password supplied with a valid
stored code fails with the too-short message without consuming the code,
and the same code still works for a later reset with an acceptable
password. -/
theorem reset_password_failure_preserves_state :
    (∀ (s : SystemState) (username code new_password : String),
       (reset_password s username code new_password).2.1 = false →
       (reset_password s username code new_password).1 = s)
    ∧ (∀ (s : SystemState) (username code new_password new_password2 : String)
         (u : UserRecord),
        s.users username = some u →
        u.recovery_code = some code →
        code ≠ "" →
        new_password.length < PASSWORD_MIN_LENGTH →
        PASSWORD_MIN_LENGTH ≤ new_password2.length →
        reset_password s username code new_password =
          (s, false, "A nova senha deve ter pelo menos " ++
            toString PASSWORD_MIN_LENGTH ++ " caracteres.")
        ∧ (reset_password s username code new_password).1.users username = some u
        ∧ (reset_password (reset_password s username code new_password).1
            username code new_password2).2 = (true, "Senha redefinida com sucesso!")) := by
  constructor
  · intro s username code new_password hf
    cases hu : s.users username with
    | none => simp [reset_password, hu]
    | some u =>
      simp only [reset_password, hu] at hf ⊢
      split_ifs at hf ⊢
      · rfl
      · rfl
  · intro s username code new_password new_password2 u hu hrc hne hshort hlen2
    have e : reset_password s username code new_password =
        (s, false, "A nova senha deve ter pelo menos " ++
          toString PASSWORD_MIN_LENGTH ++ " caracteres.") := by
      simp only [reset_password, hu]
      rw [if_neg (by simp [hrc, hne]), if_pos hshort]
    refine ⟨e, by rw [e]; exact hu, ?_⟩
    rw [e]
    simp only [reset_password, hu]
    rw [if_neg (by simp [hrc, hne]), if_neg (Nat.not_lt.mpr hlen2)]

/-- Witness for C10: `alice` with stored code `ABCD1234` and the too-short
new password `abc` fails with the too-short message, keeps her record (code
included), and `newpass9` with the same code then succeeds. -/
theorem reset_password_failure_preserves_state_witness :
    reset_password (generate_recovery_code sAlice "ABCD1234" "alice").1
      "alice" "ABCD1234" "abc" =
      ((generate_recovery_code sAlice "ABCD1234" "alice").1, false,
       "A nova senha deve ter pelo menos " ++ toString PASSWORD_MIN_LENGTH ++ " caracteres.")
    ∧ (reset_password (reset_password (generate_recovery_code sAlice "ABCD1234" "alice").1
        "alice" "ABCD1234" "abc").1 "alice" "ABCD1234" "newpass9").2 =
        (true, "Senha redefinida com sucesso!") :=
  have h := reset_password_failure_preserves_state.2
    (generate_recovery_code sAlice "ABCD1234" "alice").1 "alice" "ABCD1234" "abc"
    "newpass9" { aliceRec with recovery_code := some "ABCD1234" }
    rfl rfl (by decide) (by decide) (by decide)
  ⟨h.1, h.2.2⟩

/-- Lower-case hexadecimal character test. -/
def isHexDigitChar (c : Char) : Bool :=
  ('0' ≤ c && c ≤ '9') || ('a' ≤ c && c ≤ 'f')

theorem isHexDigitChar_hexDigit (n : Nat) (h : n < 16) :
    isHexDigitChar (hexDigit n) = true := by
  interval_cases n <;> decide

@[simp]
theorem isHexDigitChar_hexDigit_mod (n : Nat) :
    isHexDigitChar (hexDigit (n % 16)) = true :=
  isHexDigitChar_hexDigit _ (Nat.mod_lt _ (by norm_num))

/-- Every digest has exactly 64 characters. -/
theorem hash_password_length (password : String) :
    (hash_password password).length = 64 := by
  simp [hash_password, digestHex, wordHex, String.length]

/-- Every digest character is a lower-case hex digit. -/
theorem hash_password_isHex (password : String) :
    (hash_password password).data.all isHexDigitChar = true := by
  simp [hash_password, digestHex, wordHex]

/-- C8: `hash_password` is deterministic and always yields a 64-character
lower-case-hex digest; a password whose length is not 64 therefore can never
equal its own digest; and every stored record — from `register`, the
first-run bootstrap, or `reset_password` — holds exactly the digest of the
supplied password in its password field, never the password itself. -/
theorem hash_deterministic_and_only_hash_stored :
    (∀ x : String, hash_password x = hash_password x)
    ∧ (∀ x : String,
        (hash_password x).length = 64 ∧ (hash_password x).data.all isHexDigitChar = true)
    ∧ (∀ password : String, password.length ≠ 64 → hash_password password ≠ password)
    ∧ (∀ (s : SystemState) (now : Nat) (username password confirm : String),
        (register s now username password confirm).2.1 = true →
        (register s now username password confirm).1.users username =
          some ⟨hash_password password, "user", now, none, none⟩)
    ∧ (∀ now : Nat, (bootstrapState now).users ADMIN_USERNAME =
        some ⟨hash_password ADMIN_PASSWORD, "admin", now, none, none⟩)
    ∧ (∀ (s : SystemState) (username code new_password : String) (u : UserRecord),
        s.users username = some u →
        (reset_password s username code new_password).2.1 = true →
        (reset_password s username code new_password).1.users username =
          some { u with password := hash_password new_password, recovery_code := none }) := by
  refine ⟨fun _ => rfl, fun x => ⟨hash_password_length x, hash_password_isHex x⟩,
    ?_, ?_, ?_, ?_⟩
  · intro password hlen heq
    exact hlen (by rw [← heq, hash_password_length])
  · intro s now username password confirm hf
    simp only [register] at hf ⊢
    split_ifs at hf ⊢
    exact updU_self _ _ _
  · intro now
    exact updU_self emptyUsers ADMIN_USERNAME _
  · intro s username code new_password u hu hf
    simp only [reset_password, hu] at hf ⊢
    split_ifs at hf ⊢
    exact updU_self _ _ _

/-- Witness for C8: evaluated at `secret1` and at the bootstrap seed. -/
theorem hash_deterministic_and_only_hash_stored_witness :
    (hash_password "secret1").length = 64
    ∧ ("secret1".length ≠ 64 ∧ hash_password "secret1" ≠ "secret1")
    ∧ (register ⟨emptyUsers, emptyAttempts⟩ 0 "alice" "secret1" "secret1").1.users "alice" =
        some ⟨hash_password "secret1", "user", 0, none, none⟩
    ∧ (bootstrapState 0).users ADMIN_USERNAME =
        some ⟨hash_password ADMIN_PASSWORD, "admin", 0, none, none⟩ :=
  ⟨(hash_deterministic_and_only_hash_stored.2.1 "secret1").1,
   ⟨by decide, hash_deterministic_and_only_hash_stored.2.2.1 "secret1" (by decide)⟩,
   hash_deterministic_and_only_hash_stored.2.2.2.1 ⟨emptyUsers, emptyAttempts⟩ 0
     "alice" "secret1" "secret1" (by decide),
   hash_deterministic_and_only_hash_stored.2.2.2.2.1 0⟩

/-- States reachable from an empty attempts map (with any users map) by the
four operations, at arbitrary times and with arbitrary inputs. -/
inductive Reachable : SystemState → Prop where
  | init (users : String → Option UserRecord) : Reachable ⟨users, emptyAttempts⟩
  | step_register (s : SystemState) (now : Nat) (username password confirm : String) :
      Reachable s → Reachable (register s now username password confirm).1
  | step_login (s : SystemState) (now : Nat) (username password : String) :
      Reachable s → Reachable (login s now username password).1
  | step_gen (s : SystemState) (code username : String) :
      Reachable s → Reachable (generate_recovery_code s code username).1
  | step_reset (s : SystemState) (username code new_password : String) :
      Reachable s → Reachable (reset_password s username code new_password).1

/-- The strengthened per-record invariant: a record without a lockout stamp
has strictly fewer than `MAX_LOGIN_ATTEMPTS` failures, and a stamped record
has exactly `MAX_LOGIN_ATTEMPTS`. -/
def AttemptOK (r : AttemptRecord) : Prop :=
  (r.lockout_until = none ∧ r.count < MAX_LOGIN_ATTEMPTS) ∨
  (∃ t, r.lockout_until = some t ∧ r.count = MAX_LOGIN_ATTEMPTS)

/-- All stored attempt records satisfy the invariant. -/
def StateOK (s : SystemState) : Prop :=
  ∀ (username : String) (r : AttemptRecord),
    s.login_attempts username = some r → AttemptOK r

/-- The password-check half of `login` preserves the invariant, provided the
acting user's record (if any) carries no lockout stamp — which is exactly
how `login` reaches it. -/
theorem loginPw_preserves_StateOK (s : SystemState) (now : Nat)
    (username password : String) (u : UserRecord)
    (hok : StateOK s)
    (hcc : s.login_attempts username = none ∨
           ∃ c, s.login_attempts username = some ⟨c, none⟩ ∧ c < MAX_LOGIN_ATTEMPTS) :
    StateOK (loginPw s now username password u).1 := by
  by_cases hpw : u.password = hash_password password
  · cases ha : s.login_attempts username with
    | none =>
      intro name r hr
      have ha' : (loginPw s now username password u).1.login_attempts = s.login_attempts := by
        rw [loginPw_right_none s now username password u ha hpw]
      rw [ha'] at hr
      exact hok name r hr
    | some a =>
      intro name r hr
      have ha' : (loginPw s now username password u).1.login_attempts =
          updA s.login_attempts username { a with count := 0 } := by
        rw [loginPw_right_some s now username password u a ha hpw]
      rw [ha'] at hr
      by_cases hm : name = username
      · subst hm
        rw [updA_self] at hr
        cases Option.some.inj hr
        rcases hcc with hcc | ⟨c, hcc, hc⟩
        · rw [ha] at hcc; cases hcc
        · rw [ha] at hcc
          cases Option.some.inj hcc
          exact Or.inl ⟨rfl, by simp [MAX_LOGIN_ATTEMPTS]⟩
      · rw [updA_ne _ _ _ _ hm] at hr
        exact hok name r hr
  · have hcc' : s.login_attempts username = none ∧
        ((s.login_attempts username).getD ⟨0, none⟩).count = 0 ∨
        s.login_attempts username = some ⟨((s.login_attempts username).getD ⟨0, none⟩).count, none⟩ := by
      rcases hcc with h | ⟨c, h, _⟩
      · exact Or.inl ⟨h, by rw [h]; rfl⟩
      · exact Or.inr (by rw [h]; rfl)
    have hbound : ((s.login_attempts username).getD ⟨0, none⟩).count < MAX_LOGIN_ATTEMPTS := by
      rcases hcc with h | ⟨c, h, hc⟩
      · rw [h]; simp [MAX_LOGIN_ATTEMPTS]
      · rw [h]; exact hc
    intro name r hr
    rw [loginPw_wrong_attempts s now username password u
      ((s.login_attempts username).getD ⟨0, none⟩).count hcc' hpw] at hr
    by_cases hm : name = username
    · rw [hm, updA_self] at hr
      cases Option.some.inj hr
      by_cases hmax : MAX_LOGIN_ATTEMPTS ≤ ((s.login_attempts username).getD ⟨0, none⟩).count + 1
      · refine Or.inr ⟨now + LOCKOUT_TIME, by rw [if_pos hmax], ?_⟩
        show ((s.login_attempts username).getD ⟨0, none⟩).count + 1 = MAX_LOGIN_ATTEMPTS
        omega
      · exact Or.inl ⟨by rw [if_neg hmax], Nat.not_le.mp hmax⟩
    · rw [updA_ne _ _ _ _ hm] at hr
      exact hok name r hr

/-- `login` preserves the invariant. -/
theorem login_preserves_StateOK (s : SystemState) (now : Nat)
    (username password : String) (hok : StateOK s) :
    StateOK (login s now username password).1 := by
  cases hu : s.users username with
  | none => simp only [login, hu]; exact hok
  | some u =>
    cases ha : s.login_attempts username with
    | none =>
      rw [login_no_lockout_eq s now username password u hu (Or.inl ha)]
      exact loginPw_preserves_StateOK s now username password u hok (Or.inl ha)
    | some a =>
      obtain ⟨ac, al⟩ := a
      cases al with
      | none =>
        rw [login_no_lockout_eq s now username password u hu (Or.inr ⟨ac, ha⟩)]
        have hc : ac < MAX_LOGIN_ATTEMPTS := by
          rcases hok username ⟨ac, none⟩ ha with ⟨_, h⟩ | ⟨t, ht, _⟩
          · exact h
          · cases ht
        exact loginPw_preserves_StateOK s now username password u hok
          (Or.inr ⟨ac, ha, hc⟩)
      | some t =>
        by_cases hfut : now < t
        · rw [login_locked_eq s now username password u ⟨ac, some t⟩ t hu ha rfl hfut]
          exact hok
        · rw [login_expired_eq s now username password u ⟨ac, some t⟩ t hu ha rfl
            (Nat.not_lt.mp hfut)]
          have hok' : StateOK { s with login_attempts := updA s.login_attempts username ⟨0, none⟩ } := by
            intro name r hr
            replace hr : updA s.login_attempts username ⟨0, none⟩ name = some r := hr
            by_cases hm : name = username
            · rw [hm, updA_self] at hr
              cases Option.some.inj hr
              exact Or.inl ⟨rfl, by simp [MAX_LOGIN_ATTEMPTS]⟩
            · rw [updA_ne _ _ _ _ hm] at hr
              exact hok name r hr
          exact loginPw_preserves_StateOK _ now username password u hok'
            (Or.inr ⟨0, updA_self _ _ _, by simp [MAX_LOGIN_ATTEMPTS]⟩)

/-- C9: in every state reachable from an empty attempt map by `register`,
`login`, `generate_recovery_code` and `reset_password`, every stored attempt
record has `0 ≤ count ≤ MAX_LOGIN_ATTEMPTS`, and carries a `lockout_until`
stamp only when its count equals `MAX_LOGIN_ATTEMPTS`. -/
theorem attempts_invariant_reachable (s : SystemState) (hs : Reachable s) :
    ∀ (username : String) (r : AttemptRecord), s.login_attempts username = some r →
      0 ≤ r.count ∧ r.count ≤ MAX_LOGIN_ATTEMPTS ∧
      (∀ t, r.lockout_until = some t → r.count = MAX_LOGIN_ATTEMPTS) := by
  have hok : StateOK s := by
    induction hs with
    | init users =>
      intro name r hr
      simp [emptyAttempts] at hr
    | step_register s now username password confirm _ ih =>
      intro name r hr
      rw [register_attempts_eq] at hr
      exact ih name r hr
    | step_login s now username password _ ih =>
      exact login_preserves_StateOK s now username password ih
    | step_gen s code username _ ih =>
      intro name r hr
      rw [generate_attempts_eq] at hr
      exact ih name r hr
    | step_reset s username code new_password _ ih =>
      intro name r hr
      rw [reset_attempts_eq] at hr
      exact ih name r hr
  intro username r hr
  rcases hok username r hr with ⟨hl, hc⟩ | ⟨t, ht, hc⟩
  · exact ⟨Nat.zero_le _, Nat.le_of_lt hc, fun t' ht' => by rw [hl] at ht'; cases ht'⟩
  · exact ⟨Nat.zero_le _, Nat.le_of_eq hc, fun t' _ => hc⟩

/-- Witness for C9: the reachable state after one wrong login for `alice`
stores the record `⟨1, none⟩`, whose count is within the bound. -/
theorem attempts_invariant_reachable_witness :
    sAliceF1.login_attempts "alice" = some ⟨1, none⟩
    ∧ (⟨1, none⟩ : AttemptRecord).count ≤ MAX_LOGIN_ATTEMPTS :=
  have hr : Reachable sAliceF1 :=
    Reachable.step_login sAlice 10 "alice" "wrong1"
      (Reachable.init (updU emptyUsers "alice" aliceRec))
  ⟨by decide,
   (attempts_invariant_reachable sAliceF1 hr "alice" ⟨1, none⟩ (by decide)).2.1⟩

end LoginSys
